import Mathlib

/-
  Shallow embedding of src/process.js: a webhook relay that mirrors Slack
  channel membership into Box groups.

  Modelling conventions:
  - Each async JS function becomes a value of the monad M, which threads the
    Box-side state (groups, users, memberships) and an append-only trace of
    observable actions, and can fail with a JS runtime error (a TypeError from
    dereferencing undefined, or a rejected HTTP call).  State reached before a
    thrown error is kept, as in JS, where side effects are not rolled back.
  - The Slack side is read-only and lives in an environment record: the user
    directory (users.info), the channel member listing (conversations.members),
    and flags saying whether each outbound HTTP call succeeds (axios rejects on
    a non-2xx response).
  - A user with an absent or empty (falsy) profile.email is modelled with
    email = none.
  - console.log / console.error lines become trace actions; the entry log of
    addGroupUser and of removeGroupUser carries exactly the interpolated
    group id and email, so it doubles as the record of one invocation of the
    add-membership (resp. remove-membership) operation with its arguments.
  - The forEach loop in syncChannelToGroup fires one async callback per member
    and never awaits them; callbacks are independent, so an error in one is an
    unhandled rejection that does not stop the others.  The model runs the
    callbacks in list order and discards (detaches) the error of each, which
    preserves exactly the set and order of issued calls.
  - The create call inside getGroup is not awaited in the source; since
    getGroup is an async function, returning that promise resolves the
    returned promise to the created group (JS promise flattening), which the
    model makes explicit through JsVal and awaitVal.
-/

namespace BoxSlack

structure SlackUser where
  id : String
  name : String
  is_bot : Bool
  email : Option String
  deriving DecidableEq

structure Group where
  id : Nat
  name : String
  deriving DecidableEq

structure BoxUser where
  id : Nat
  login : String
  deriving DecidableEq

structure Membership where
  id : Nat
  userId : Nat
  userLogin : String
  groupId : Nat
  deriving DecidableEq

structure BoxState where
  groups : List Group
  users : List BoxUser
  memberships : List Membership
  nextId : Nat
  deriving DecidableEq

inductive Action where
  | logInfo (msg : String)
  | logError (msg : String)
  | addMemberCall (groupId : Nat) (email : String)
  | boxAddUser (groupId : Nat) (userId : Nat) (role : String)
  | removeMemberCall (groupId : Nat) (email : String)
  | boxRemoveMembership (membershipId : Nat)
  | asUser (userId : Nat)
  | collabCreate (groupId : Nat) (itemId : Option String) (role : String) (itemType : Option String)
  | response (status : Nat) (body : String)
  | challengeResponse (challenge : String)
  deriving DecidableEq

inductive JsErr where
  | typeError
  | httpError
  deriving DecidableEq

structure St where
  box : BoxState
  trace : List Action
  deriving DecidableEq

def M (α : Type) : Type := St → Except JsErr α × St

instance : Monad M where
  pure a := fun s => (Except.ok a, s)
  bind m f := fun s =>
    match m s with
    | (Except.ok a, s1) => f a s1
    | (Except.error e, s1) => (Except.error e, s1)

def emit (a : Action) : M Unit := fun s =>
  (Except.ok (), { s with trace := s.trace ++ [a] })

def getBox : M BoxState := fun s => (Except.ok s.box, s)

def modifyBox (f : BoxState → BoxState) : M Unit := fun s =>
  (Except.ok (), { s with box := f s.box })

def throwJs {α : Type} (e : JsErr) : M α := fun s => (Except.error e, s)

/-- Fire an async callback without awaiting it: its effects happen, but a
thrown error is only an unhandled rejection and does not propagate. -/
def detach (m : M Unit) : M Unit := fun s => (Except.ok (), (m s).2)

structure Env where
  slackUsers : List SlackUser
  channelMembers : String → List String
  userHttpOk : String → Bool
  membersHttpOk : Bool
  collabOk : Bool
  verificationToken : String

structure EventData where
  type : String
  channel : String
  user : String
  deriving DecidableEq

/-- The parsed HTTP request body.  Absent string fields are modelled as the
empty string; the event object is always present in the bodies the claims
quantify over. -/
structure ReqBody where
  token : String
  type : String
  challenge : String
  event : EventData
  command : String
  channel_id : String
  user_id : String
  text : String
  deriving DecidableEq

/-! ## Chat Client Adapter (src/process.js lines 57 to 67, 115 to 117) -/

def lookupSlackUser (env : Env) (userId : String) : Option SlackUser :=
  env.slackUsers.find? (fun u => u.id == userId)

/-- getSlackUser: axios GET users.info; a non-2xx response rejects the await,
an OK response without a user field logs an error and returns undefined
(modelled as none). -/
def getSlackUser (env : Env) (userId : String) : M (Option SlackUser) := do
  if env.userHttpOk userId then
    match lookupSlackUser env userId with
    | some u => pure (some u)
    | none => do
        emit (Action.logError "No user data found")
        pure none
  else throwJs JsErr.httpError

/-! ## Storage Client Adapter and Group Sync Workflow -/

def mirrorName (channelId : String) : String := "slack-" ++ channelId

def findGroup (b : BoxState) (name : String) : Option Group :=
  (b.groups.filter (fun g => g.name == name)).head?

/-- The local variable group in getGroup is either a group object found by the
linear scan, or the unawaited promise of the create call. -/
inductive JsVal where
  | group (g : Group)
  | promise (g : Group)
  deriving DecidableEq

/-- Awaiting an async function that returned a promise yields the promise
resolution value (JS promise flattening); awaiting a plain value yields it. -/
def awaitVal : JsVal → Group
  | JsVal.group g => g
  | JsVal.promise g => g

/-- getGroup body: list all groups, filter by the derived name, create when
absent.  The create call is issued (so the group comes into being on the Box
side) but not awaited; the value of the local variable is the promise. -/
def getGroupVal (channelId : String) : M JsVal := do
  emit (Action.logInfo ("Get group for channel " ++ channelId))
  let groupName := mirrorName channelId
  let b ← getBox
  match findGroup b groupName with
  | some g => pure (JsVal.group g)
  | none => do
      let g : Group := { id := b.nextId, name := groupName }
      modifyBox (fun b0 => { b0 with groups := b0.groups ++ [g], nextId := b0.nextId + 1 })
      pure (JsVal.promise g)

/-- What a caller that awaits getGroup receives. -/
def getGroup (channelId : String) : M Group := do
  let v ← getGroupVal channelId
  pure (awaitVal v)

def findBoxUser (b : BoxState) (email : Option String) : Option BoxUser :=
  (b.users.filter (fun u => some u.login == email)).head?

/-- addGroupUser (lines 130 to 153).  The entry action records the invocation
with its arguments (the console.log line).  Note the source filters the
membership list of the user by m.user.id === userId, not by the group. -/
def addGroupUser (groupId : Nat) (email : String) : M Unit := do
  emit (Action.addMemberCall groupId email)
  let b ← getBox
  match findBoxUser b (some email) with
  | none => emit (Action.logError ("User " ++ email ++ " not found"))
  | some boxUser => do
      let memberships := b.memberships.filter (fun m => m.userId == boxUser.id)
      match (memberships.filter (fun m => m.userId == boxUser.id)).head? with
      | some _ =>
          emit (Action.logInfo ("User " ++ email ++ " is already a member of group " ++ toString groupId))
      | none => do
          emit (Action.boxAddUser groupId boxUser.id "MEMBER")
          modifyBox (fun b0 => { b0 with
            memberships := b0.memberships ++
              [{ id := b0.nextId, userId := boxUser.id, userLogin := boxUser.login, groupId := groupId }],
            nextId := b0.nextId + 1 })
          emit (Action.logInfo ("Added " ++ email ++ " to group #" ++ toString groupId))

/-- removeGroupUser (lines 158 to 170): list the memberships of the group,
match by login, remove when found, log an error otherwise. -/
def removeGroupUser (groupId : Nat) (email : String) : M Unit := do
  emit (Action.removeMemberCall groupId email)
  let b ← getBox
  let memberships := b.memberships.filter (fun m => m.groupId == groupId)
  match (memberships.filter (fun m => m.userLogin == email)).head? with
  | some m => do
      emit (Action.boxRemoveMembership m.id)
      modifyBox (fun b0 => { b0 with memberships := b0.memberships.filter (fun m2 => m2.id != m.id) })
      emit (Action.logInfo ("Removed " ++ email ++ " from group #" ++ toString groupId))
  | none =>
      emit (Action.logError ("User " ++ email ++ " is not a member of group #" ++ toString groupId))

/-- One forEach callback of syncChannelToGroup (lines 119 to 124): resolve the
member, then add when the user has an email and is not a bot.  Dereferencing
an undefined user throws. -/
def syncMember (env : Env) (groupId : Nat) (userId : String) : M Unit := do
  let user ← getSlackUser env userId
  match user with
  | none => throwJs JsErr.typeError
  | some u =>
      match u.email with
      | some e => if u.is_bot then pure () else addGroupUser groupId e
      | none => pure ()

def syncMembers (env : Env) (groupId : Nat) : List String → M Unit
  | [] => pure ()
  | userId :: rest => do
      detach (syncMember env groupId userId)
      syncMembers env groupId rest

/-- syncChannelToGroup (lines 112 to 125): conversations.members with
limit=100 returns the first page only; each member is synced by an unawaited
callback. -/
def syncChannelToGroup (env : Env) (channelId : String) (groupId : Nat) : M Unit := do
  emit (Action.logInfo ("Syncing channel " ++ channelId ++ " to group " ++ toString groupId))
  if env.membersHttpOk then
    syncMembers env groupId ((env.channelMembers channelId).take 100)
  else throwJs JsErr.httpError

/-- syncSlackUsers (lines 73 to 87).  Reading user.name of an undefined user
throws before anything else happens. -/
def syncSlackUsers (env : Env) (user : Option SlackUser) (event : String) (channelId : String) : M Unit := do
  match user with
  | none => throwJs JsErr.typeError
  | some u => do
      emit (Action.logInfo ("Received " ++ event ++ " for " ++ u.name))
      let group ← getGroup channelId
      if u.is_bot then
        syncChannelToGroup env channelId group.id
      else
        match u.email with
        | some email =>
            if event == "member_joined_channel" then addGroupUser group.id email
            else if event == "member_left_channel" then removeGroupUser group.id email
            else pure ()
        | none => pure ()

/-! ## Webhook Router and Command Workflow -/

def handleUrlVerification (req : ReqBody) : M Unit := do
  emit (Action.logInfo "Received URL verification challenge")
  emit (Action.challengeResponse req.challenge)

def handleEventCallback (env : Env) (req : ReqBody) : M Unit := do
  let user ← getSlackUser env req.event.user
  syncSlackUsers env user req.event.type req.event.channel
  emit (Action.response 200 "")

/-- JS String.prototype.split with a single-space separator: every space ends
a segment, empty segments are kept. -/
def splitAux : List Char → List Char → List String
  | [], acc => [String.mk acc.reverse]
  | c :: rest, acc =>
      if c = ' ' then String.mk acc.reverse :: splitAux rest []
      else splitAux rest (c :: acc)

def jsSplitSpace (s : String) : List String := splitAux s.toList []

/-- JS isNaN applied to the item id token (a string, or undefined when the
text had no second token).  Restricted to the literals this development uses:
undefined is NaN; a string of ASCII digits is numeric; the empty string
coerces to 0 and is numeric; anything else is NaN.  (Full JS numeric
coercion also accepts signs, decimals and exponents; none occur here.) -/
def jsIsNaN : Option String → Bool
  | none => true
  | some s => !(s.toList.all (fun c => c.isDigit))

def jsShow : Option String → String
  | some s => s
  | none => "undefined"

/-- handleCommand (lines 176 to 214).  The invalid-input branch sends the
usage message but has no early return, so execution continues into the
workflow; the missing-Box-user branch does return. -/
def handleCommand (env : Env) (req : ReqBody) : M Unit := do
  let parts := jsSplitSpace req.text
  let itemType : Option String := parts[0]?
  let itemId : Option String := parts[1]?
  if !(itemType == some "file" || itemType == some "folder") || jsIsNaN itemId then
    emit (Action.response 200 "Invalid input. Example usage: /boxadd file 123456")
  let group ← getGroup req.channel_id
  let slackUser ← getSlackUser env req.user_id
  match slackUser with
  | none => throwJs JsErr.typeError
  | some su => do
      let email := su.email
      let b ← getBox
      match findBoxUser b email with
      | none =>
          emit (Action.response 200 ("Could not find a Box user with email " ++ jsShow email))
      | some boxUser => do
          emit (Action.asUser boxUser.id)
          emit (Action.collabCreate group.id itemId "VIEWER" itemType)
          if env.collabOk then
            emit (Action.response 200 "Provided all users with access to item")
          else
            emit (Action.response 200 "Could not provide all users access")

/-- The POST /event route (lines 17 to 31).  A failed token check sends a 400
response but does not return; classification then proceeds. -/
def postEvent (env : Env) (req : ReqBody) : M Unit := do
  if req.token != env.verificationToken then
    emit (Action.response 400 "Slack Verification Failed")
  if req.type == "url_verification" then handleUrlVerification req
  else if req.type == "event_callback" then handleEventCallback env req
  else if req.command == "/boxadd" then handleCommand env req
  else emit (Action.response 400 "")

/-! ## Trace observables -/

def addCalls (tr : List Action) : List (Nat × String) :=
  tr.filterMap (fun a => match a with
    | Action.addMemberCall g e => some (g, e)
    | _ => none)

def removeCalls (tr : List Action) : List (Nat × String) :=
  tr.filterMap (fun a => match a with
    | Action.removeMemberCall g e => some (g, e)
    | _ => none)

def collabCalls (tr : List Action) : List (Nat × Option String × String × Option String) :=
  tr.filterMap (fun a => match a with
    | Action.collabCreate g i r t => some (g, i, r, t)
    | _ => none)

def responses (tr : List Action) : List (Nat × String) :=
  tr.filterMap (fun a => match a with
    | Action.response st b => some (st, b)
    | _ => none)

def boxAddCalls (tr : List Action) : List (Nat × Nat) :=
  tr.filterMap (fun a => match a with
    | Action.boxAddUser g u _ => some (g, u)
    | _ => none)

/-! ## Run lemmas for the monad -/

@[simp] theorem run_bind {α β : Type} (m : M α) (f : α → M β) (s : St) :
    (m >>= f) s = match m s with
      | (Except.ok a, s1) => f a s1
      | (Except.error e, s1) => (Except.error e, s1) := rfl

@[simp] theorem run_pure {α : Type} (a : α) (s : St) :
    (pure a : M α) s = (Except.ok a, s) := rfl

@[simp] theorem run_emit (a : Action) (s : St) :
    emit a s = (Except.ok (), { s with trace := s.trace ++ [a] }) := rfl

@[simp] theorem run_getBox (s : St) : getBox s = (Except.ok s.box, s) := rfl

@[simp] theorem run_modifyBox (f : BoxState → BoxState) (s : St) :
    modifyBox f s = (Except.ok (), { s with box := f s.box }) := rfl

@[simp] theorem run_throwJs {α : Type} (e : JsErr) (s : St) :
    (throwJs e : M α) s = (Except.error e, s) := rfl

@[simp] theorem run_detach (m : M Unit) (s : St) :
    detach m s = (Except.ok (), (m s).2) := rfl

/-! ## Observable extractors: structural lemmas -/

@[simp] theorem addCalls_nil : addCalls [] = [] := rfl

@[simp] theorem addCalls_append (t1 t2 : List Action) :
    addCalls (t1 ++ t2) = addCalls t1 ++ addCalls t2 := by simp [addCalls]

@[simp] theorem addCalls_cons (a : Action) (tr : List Action) :
    addCalls (a :: tr) =
      (match a with | Action.addMemberCall g e => [(g, e)] | _ => []) ++ addCalls tr := by
  cases a <;> rfl

@[simp] theorem removeCalls_nil : removeCalls [] = [] := rfl

@[simp] theorem removeCalls_append (t1 t2 : List Action) :
    removeCalls (t1 ++ t2) = removeCalls t1 ++ removeCalls t2 := by simp [removeCalls]

@[simp] theorem removeCalls_cons (a : Action) (tr : List Action) :
    removeCalls (a :: tr) =
      (match a with | Action.removeMemberCall g e => [(g, e)] | _ => []) ++ removeCalls tr := by
  cases a <;> rfl

@[simp] theorem collabCalls_nil : collabCalls [] = [] := rfl

@[simp] theorem collabCalls_append (t1 t2 : List Action) :
    collabCalls (t1 ++ t2) = collabCalls t1 ++ collabCalls t2 := by simp [collabCalls]

@[simp] theorem collabCalls_cons (a : Action) (tr : List Action) :
    collabCalls (a :: tr) =
      (match a with | Action.collabCreate g i r t => [(g, i, r, t)] | _ => []) ++ collabCalls tr := by
  cases a <;> rfl

@[simp] theorem responses_nil : responses [] = [] := rfl

@[simp] theorem responses_append (t1 t2 : List Action) :
    responses (t1 ++ t2) = responses t1 ++ responses t2 := by simp [responses]

@[simp] theorem responses_cons (a : Action) (tr : List Action) :
    responses (a :: tr) =
      (match a with | Action.response st b => [(st, b)] | _ => []) ++ responses tr := by
  cases a <;> rfl

@[simp] theorem boxAddCalls_nil : boxAddCalls [] = [] := rfl

@[simp] theorem boxAddCalls_append (t1 t2 : List Action) :
    boxAddCalls (t1 ++ t2) = boxAddCalls t1 ++ boxAddCalls t2 := by simp [boxAddCalls]

@[simp] theorem boxAddCalls_cons (a : Action) (tr : List Action) :
    boxAddCalls (a :: tr) =
      (match a with | Action.boxAddUser g u _ => [(g, u)] | _ => []) ++ boxAddCalls tr := by
  cases a <;> rfl

/-! ## Characterization of the adapters -/

theorem getSlackUser_run_found {env : Env} {uid : String} {u : SlackUser}
    (h1 : env.userHttpOk uid = true) (h2 : lookupSlackUser env uid = some u) (s : St) :
    getSlackUser env uid s = (Except.ok (some u), s) := by
  simp [getSlackUser, h1, h2]

theorem getSlackUser_run_nodata {env : Env} {uid : String}
    (h1 : env.userHttpOk uid = true) (h2 : lookupSlackUser env uid = none) (s : St) :
    getSlackUser env uid s =
      (Except.ok none, { s with trace := s.trace ++ [Action.logError "No user data found"] }) := by
  simp [getSlackUser, h1, h2]

theorem getSlackUser_run_httpfail {env : Env} {uid : String}
    (h1 : env.userHttpOk uid = false) (s : St) :
    getSlackUser env uid s = (Except.error JsErr.httpError, s) := by
  simp [getSlackUser, h1]

/-- The group a caller of getGroup receives: the first existing group with the
derived name, or the newly created one. -/
def groupFor (b : BoxState) (c : String) : Group :=
  match findGroup b (mirrorName c) with
  | some g => g
  | none => { id := b.nextId, name := mirrorName c }

/-- The Box state after getGroup: unchanged when the group existed, extended
with the created group otherwise. -/
def boxAfterGroup (b : BoxState) (c : String) : BoxState :=
  match findGroup b (mirrorName c) with
  | some _ => b
  | none =>
      { groups := b.groups ++ [{ id := b.nextId, name := mirrorName c }]
        users := b.users
        memberships := b.memberships
        nextId := b.nextId + 1 }

theorem getGroup_run (c : String) (s : St) :
    getGroup c s = (Except.ok (groupFor s.box c),
      { box := boxAfterGroup s.box c,
        trace := s.trace ++ [Action.logInfo ("Get group for channel " ++ c)] }) := by
  cases h : findGroup s.box (mirrorName c) <;>
    simp [getGroup, getGroupVal, groupFor, boxAfterGroup, awaitVal, h]

theorem getGroupVal_run_created {c : String} {s : St}
    (h : findGroup s.box (mirrorName c) = none) :
    getGroupVal c s = (Except.ok (JsVal.promise { id := s.box.nextId, name := mirrorName c }),
      { box := boxAfterGroup s.box c,
        trace := s.trace ++ [Action.logInfo ("Get group for channel " ++ c)] }) := by
  simp [getGroupVal, boxAfterGroup, h]

@[simp] theorem boxAfterGroup_users (b : BoxState) (c : String) :
    (boxAfterGroup b c).users = b.users := by
  cases h : findGroup b (mirrorName c) <;> simp [boxAfterGroup, h]

@[simp] theorem boxAfterGroup_memberships (b : BoxState) (c : String) :
    (boxAfterGroup b c).memberships = b.memberships := by
  cases h : findGroup b (mirrorName c) <;> simp [boxAfterGroup, h]

theorem head?_filter_prop {α : Type} {p : α → Bool} {l : List α} {x : α}
    (h : (l.filter p).head? = some x) : p x = true := by
  have hx : x ∈ l.filter p := by
    cases hl : l.filter p with
    | nil => simp [hl] at h
    | cons y ys => simp [hl] at h; simp [hl, h]
  exact (List.mem_filter.mp hx).2

theorem findGroup_name {b : BoxState} {n : String} {g : Group}
    (h : findGroup b n = some g) : g.name = n := by
  have := head?_filter_prop h
  simpa using this

theorem groupFor_name (b : BoxState) (c : String) :
    (groupFor b c).name = mirrorName c := by
  cases h : findGroup b (mirrorName c) with
  | none => simp [groupFor, h]
  | some g => simpa [groupFor, h] using findGroup_name h

theorem findGroup_after (b : BoxState) (c : String) :
    findGroup (boxAfterGroup b c) (mirrorName c) = some (groupFor b c) := by
  cases h : findGroup b (mirrorName c) with
  | some g => simp [boxAfterGroup, groupFor, h]
  | none =>
      have hf : b.groups.filter (fun g => g.name == mirrorName c) = [] := by
        have := h
        simpa [findGroup, List.head?_eq_none_iff] using this
      simp [boxAfterGroup, groupFor, findGroup, h, List.filter_append, hf]

/-! ## Characterization of addGroupUser and removeGroupUser -/

theorem addGroupUser_run (gid : Nat) (e : String) (s : St) :
    ∃ b1 δ, addGroupUser gid e s = (Except.ok (), { box := b1, trace := s.trace ++ δ }) ∧
      addCalls δ = [(gid, e)] ∧ removeCalls δ = [] ∧ collabCalls δ = [] ∧
      responses δ = [] ∧ b1.groups = s.box.groups ∧ b1.users = s.box.users := by
  cases hu : findBoxUser s.box (some e) with
  | none =>
      exact ⟨s.box, [Action.addMemberCall gid e, Action.logError ("User " ++ e ++ " not found")],
        by simp [addGroupUser, hu], by simp, by simp, by simp, by simp, rfl, rfl⟩
  | some boxUser =>
      cases hm : List.find? (fun m => m.userId == boxUser.id) s.box.memberships with
      | some m =>
          exact ⟨s.box, [Action.addMemberCall gid e,
            Action.logInfo ("User " ++ e ++ " is already a member of group " ++ toString gid)],
            by simp [addGroupUser, hu, hm], by simp, by simp, by simp, by simp, rfl, rfl⟩
      | none =>
          exact ⟨{ s.box with
              memberships := s.box.memberships ++
                [{ id := s.box.nextId, userId := boxUser.id, userLogin := boxUser.login,
                   groupId := gid }],
              nextId := s.box.nextId + 1 },
            [Action.addMemberCall gid e, Action.boxAddUser gid boxUser.id "MEMBER",
             Action.logInfo ("Added " ++ e ++ " to group #" ++ toString gid)],
            by simp [addGroupUser, hu, hm], by simp, by simp, by simp, by simp, rfl, rfl⟩

theorem removeGroupUser_run (gid : Nat) (e : String) (s : St) :
    ∃ b1 δ, removeGroupUser gid e s = (Except.ok (), { box := b1, trace := s.trace ++ δ }) ∧
      removeCalls δ = [(gid, e)] ∧ addCalls δ = [] ∧ collabCalls δ = [] ∧
      responses δ = [] ∧ b1.groups = s.box.groups ∧ b1.users = s.box.users ∧
      (List.find? (fun m => m.userLogin == e && m.groupId == gid) s.box.memberships = none →
        b1 = s.box) := by
  cases hm : List.find? (fun m => m.userLogin == e && m.groupId == gid) s.box.memberships with
  | none =>
      exact ⟨s.box, [Action.removeMemberCall gid e,
        Action.logError ("User " ++ e ++ " is not a member of group #" ++ toString gid)],
        by simp [removeGroupUser, hm], by simp, by simp, by simp, by simp, rfl, rfl,
        fun _ => rfl⟩
  | some m =>
      exact ⟨{ s.box with memberships := s.box.memberships.filter (fun m2 => m2.id != m.id) },
        [Action.removeMemberCall gid e, Action.boxRemoveMembership m.id,
         Action.logInfo ("Removed " ++ e ++ " from group #" ++ toString gid)],
        by simp [removeGroupUser, hm], by simp, by simp, by simp, by simp, rfl, rfl,
        by intro h; simp at h⟩

/-! ## Characterization of the roster fan-out -/

/-- Formalization of the claim predicate for the fan-out: the members of the
listed page that resolve to a non-bot user with an email, together with the
email each add call carries. -/
def fanOutAdds (env : Env) (groupId : Nat) (ms : List String) : List (Nat × String) :=
  ms.filterMap (fun uid =>
    if env.userHttpOk uid then
      match lookupSlackUser env uid with
      | some u =>
          match u.email with
          | some e => if u.is_bot then none else some (groupId, e)
          | none => none
      | none => none
    else none)

theorem filterMap_cons_split {α β : Type} (f : α → Option β) (a : α) (l : List α) :
    List.filterMap f (a :: l) = List.filterMap f [a] ++ List.filterMap f l := by
  cases h : f a <;> simp [List.filterMap_cons, h]

theorem fanOutAdds_cons (env : Env) (gid : Nat) (uid : String) (rest : List String) :
    fanOutAdds env gid (uid :: rest) = fanOutAdds env gid [uid] ++ fanOutAdds env gid rest :=
  filterMap_cons_split _ _ _

theorem detach_syncMember_run (env : Env) (gid : Nat) (uid : String) (s : St) :
    ∃ b1 δ, detach (syncMember env gid uid) s =
        (Except.ok (), { box := b1, trace := s.trace ++ δ }) ∧
      addCalls δ = fanOutAdds env gid [uid] ∧ removeCalls δ = [] ∧ collabCalls δ = [] ∧
      responses δ = [] ∧ b1.groups = s.box.groups ∧ b1.users = s.box.users := by
  cases hh : env.userHttpOk uid with
  | false =>
      exact ⟨s.box, [], by simp [syncMember, getSlackUser_run_httpfail hh],
        by simp [fanOutAdds, hh], by simp, by simp, by simp, rfl, rfl⟩
  | true =>
      cases hl : lookupSlackUser env uid with
      | none =>
          exact ⟨s.box, [Action.logError "No user data found"],
            by simp [syncMember, getSlackUser_run_nodata hh hl],
            by simp [fanOutAdds, hh, hl], by simp, by simp, by simp, rfl, rfl⟩
      | some u =>
          cases he : u.email with
          | none =>
              exact ⟨s.box, [],
                by simp [syncMember, getSlackUser_run_found hh hl, he],
                by simp [fanOutAdds, hh, hl, he], by simp, by simp, by simp, rfl, rfl⟩
          | some e =>
              cases hb : u.is_bot with
              | true =>
                  exact ⟨s.box, [],
                    by simp [syncMember, getSlackUser_run_found hh hl, he, hb],
                    by simp [fanOutAdds, hh, hl, he, hb], by simp, by simp, by simp, rfl, rfl⟩
              | false =>
                  obtain ⟨b1, δ, hrun, ha, hr, hc, hp, hg, hus⟩ := addGroupUser_run gid e s
                  exact ⟨b1, δ,
                    by simp [syncMember, getSlackUser_run_found hh hl, he, hb, hrun],
                    by simp [fanOutAdds, hh, hl, he, hb, ha], hr, hc, hp, hg, hus⟩

theorem syncMembers_run (env : Env) (gid : Nat) :
    ∀ (ms : List String) (s : St), ∃ b1 δ,
      syncMembers env gid ms s = (Except.ok (), { box := b1, trace := s.trace ++ δ }) ∧
      addCalls δ = fanOutAdds env gid ms ∧ removeCalls δ = [] ∧ collabCalls δ = [] ∧
      responses δ = [] ∧ b1.groups = s.box.groups ∧ b1.users = s.box.users := by
  intro ms
  induction ms with
  | nil =>
      intro s
      exact ⟨s.box, [], by simp [syncMembers], by simp [fanOutAdds], by simp, by simp,
        by simp, rfl, rfl⟩
  | cons uid rest ih =>
      intro s
      obtain ⟨b1, δ1, h1, ha1, hr1, hc1, hp1, hg1, hu1⟩ := detach_syncMember_run env gid uid s
      obtain ⟨b2, δ2, h2, ha2, hr2, hc2, hp2, hg2, hu2⟩ := ih { box := b1, trace := s.trace ++ δ1 }
      have h1x : (syncMember env gid uid s).2 = { box := b1, trace := s.trace ++ δ1 } :=
        congrArg Prod.snd h1
      refine ⟨b2, δ1 ++ δ2, ?_, ?_, ?_, ?_, ?_, ?_, ?_⟩
      · simp [syncMembers, h1x, h2]
      · simp [ha1, ha2, fanOutAdds_cons env gid uid rest]
      · simp [hr1, hr2]
      · simp [hc1, hc2]
      · simp [hp1, hp2]
      · simpa [hg1] using hg2
      · simpa [hu1] using hu2

theorem syncChannelToGroup_run (env : Env) (c : String) (gid : Nat) (s : St)
    (hm : env.membersHttpOk = true) :
    ∃ b1 δ, syncChannelToGroup env c gid s =
        (Except.ok (), { box := b1, trace := s.trace ++ δ }) ∧
      addCalls δ = fanOutAdds env gid ((env.channelMembers c).take 100) ∧
      removeCalls δ = [] ∧ collabCalls δ = [] ∧ responses δ = [] ∧
      b1.groups = s.box.groups ∧ b1.users = s.box.users := by
  obtain ⟨b1, δ, h1, ha, hr, hc, hp, hg, hu⟩ := syncMembers_run env gid
    ((env.channelMembers c).take 100)
    { box := s.box,
      trace := s.trace ++ [Action.logInfo ("Syncing channel " ++ c ++ " to group " ++ toString gid)] }
  refine ⟨b1, Action.logInfo ("Syncing channel " ++ c ++ " to group " ++ toString gid) :: δ,
    ?_, ?_, ?_, ?_, ?_, ?_, ?_⟩
  · simpa [syncChannelToGroup, hm] using h1
  · simp [ha]
  · simp [hr]
  · simp [hc]
  · simp [hp]
  · exact hg
  · exact hu

/-! ## Characterization of syncSlackUsers and handleEventCallback -/

theorem syncSlackUsers_run_joined (env : Env) {u : SlackUser} {e : String} {event : String}
    (hbot : u.is_bot = false) (he : u.email = some e)
    (hj : (event == "member_joined_channel") = true) (c : String) (s : St) :
    ∃ b1 δ, syncSlackUsers env (some u) event c s =
        (Except.ok (), { box := b1, trace := s.trace ++ δ }) ∧
      addCalls δ = [((groupFor s.box c).id, e)] ∧ removeCalls δ = [] ∧ collabCalls δ = [] ∧
      responses δ = [] ∧ b1.groups = (boxAfterGroup s.box c).groups ∧ b1.users = s.box.users := by
  obtain ⟨b1, δ3, hrun, ha, hr, hc, hp, hg, hu⟩ := addGroupUser_run (groupFor s.box c).id e
    { box := boxAfterGroup s.box c,
      trace := s.trace ++ [Action.logInfo ("Received " ++ event ++ " for " ++ u.name),
        Action.logInfo ("Get group for channel " ++ c)] }
  refine ⟨b1, [Action.logInfo ("Received " ++ event ++ " for " ++ u.name),
      Action.logInfo ("Get group for channel " ++ c)] ++ δ3, ?_, ?_, ?_, ?_, ?_, ?_, ?_⟩
  · simp [syncSlackUsers, getGroup_run, hbot, he, hj, hrun]
  · simp [ha]
  · simp [hr]
  · simp [hc]
  · simp [hp]
  · simpa using hg
  · simpa using hu

theorem syncSlackUsers_run_left (env : Env) {u : SlackUser} {e : String} {event : String}
    (hbot : u.is_bot = false) (he : u.email = some e)
    (hj : (event == "member_joined_channel") = false)
    (hl : (event == "member_left_channel") = true) (c : String) (s : St) :
    ∃ b1 δ, syncSlackUsers env (some u) event c s =
        (Except.ok (), { box := b1, trace := s.trace ++ δ }) ∧
      removeCalls δ = [((groupFor s.box c).id, e)] ∧ addCalls δ = [] ∧ collabCalls δ = [] ∧
      responses δ = [] ∧ b1.groups = (boxAfterGroup s.box c).groups ∧ b1.users = s.box.users ∧
      (List.find? (fun m => m.userLogin == e && m.groupId == (groupFor s.box c).id)
          s.box.memberships = none → b1 = boxAfterGroup s.box c) := by
  obtain ⟨b1, δ3, hrun, hr, ha, hc, hp, hg, hu, hnone⟩ := removeGroupUser_run (groupFor s.box c).id e
    { box := boxAfterGroup s.box c,
      trace := s.trace ++ [Action.logInfo ("Received " ++ event ++ " for " ++ u.name),
        Action.logInfo ("Get group for channel " ++ c)] }
  refine ⟨b1, [Action.logInfo ("Received " ++ event ++ " for " ++ u.name),
      Action.logInfo ("Get group for channel " ++ c)] ++ δ3, ?_, ?_, ?_, ?_, ?_, ?_, ?_, ?_⟩
  · simp [syncSlackUsers, getGroup_run, hbot, he, hj, hl, hrun]
  · simp [hr]
  · simp [ha]
  · simp [hc]
  · simp [hp]
  · simpa using hg
  · simpa using hu
  · intro hfind
    apply hnone
    simpa using hfind

theorem syncSlackUsers_run_ignored (env : Env) {u : SlackUser} {event : String}
    (hbot : u.is_bot = false)
    (hig : u.email = none ∨ ((event == "member_joined_channel") = false ∧
      (event == "member_left_channel") = false)) (c : String) (s : St) :
    syncSlackUsers env (some u) event c s = (Except.ok (),
      { box := boxAfterGroup s.box c,
        trace := s.trace ++ [Action.logInfo ("Received " ++ event ++ " for " ++ u.name),
          Action.logInfo ("Get group for channel " ++ c)] }) := by
  rcases hig with he | ⟨h1, h2⟩
  · simp [syncSlackUsers, getGroup_run, hbot, he]
  · cases he : u.email with
    | none => simp [syncSlackUsers, getGroup_run, hbot, he]
    | some e => simp [syncSlackUsers, getGroup_run, hbot, he, h1, h2]

theorem syncSlackUsers_run_bot (env : Env) {u : SlackUser}
    (hbot : u.is_bot = true) (hm : env.membersHttpOk = true) (event c : String) (s : St) :
    ∃ b1 δ, syncSlackUsers env (some u) event c s =
        (Except.ok (), { box := b1, trace := s.trace ++ δ }) ∧
      addCalls δ = fanOutAdds env (groupFor s.box c).id ((env.channelMembers c).take 100) ∧
      removeCalls δ = [] ∧ collabCalls δ = [] ∧ responses δ = [] ∧
      b1.groups = (boxAfterGroup s.box c).groups ∧ b1.users = s.box.users := by
  obtain ⟨b1, δ3, hrun, ha, hr, hc, hp, hg, hu⟩ := syncChannelToGroup_run env c
    (groupFor s.box c).id
    { box := boxAfterGroup s.box c,
      trace := s.trace ++ [Action.logInfo ("Received " ++ event ++ " for " ++ u.name),
        Action.logInfo ("Get group for channel " ++ c)] } hm
  refine ⟨b1, [Action.logInfo ("Received " ++ event ++ " for " ++ u.name),
      Action.logInfo ("Get group for channel " ++ c)] ++ δ3, ?_, ?_, ?_, ?_, ?_, ?_, ?_⟩
  · simp [syncSlackUsers, getGroup_run, hbot, hrun]
  · simp [ha]
  · simp [hr]
  · simp [hc]
  · simp [hp]
  · simpa using hg
  · simpa using hu

theorem handleEventCallback_run_joined {env : Env} {req : ReqBody} {u : SlackUser} {e : String}
    (hhttp : env.userHttpOk req.event.user = true)
    (hlk : lookupSlackUser env req.event.user = some u)
    (hbot : u.is_bot = false) (he : u.email = some e)
    (hj : (req.event.type == "member_joined_channel") = true) (s : St) :
    ∃ b1 δ, handleEventCallback env req s = (Except.ok (), { box := b1, trace := s.trace ++ δ }) ∧
      addCalls δ = [((groupFor s.box req.event.channel).id, e)] ∧
      removeCalls δ = [] ∧ collabCalls δ = [] ∧ responses δ = [(200, "")] ∧
      b1.groups = (boxAfterGroup s.box req.event.channel).groups ∧ b1.users = s.box.users := by
  obtain ⟨b1, δ, h1, ha, hr, hc, hp, hg, hu⟩ :=
    syncSlackUsers_run_joined env hbot he hj req.event.channel s
  refine ⟨b1, δ ++ [Action.response 200 ""], ?_, ?_, ?_, ?_, ?_, ?_, ?_⟩
  · simp [handleEventCallback, getSlackUser_run_found hhttp hlk, h1]
  · simp [ha]
  · simp [hr]
  · simp [hc]
  · simp [hp]
  · exact hg
  · exact hu

theorem handleEventCallback_run_left {env : Env} {req : ReqBody} {u : SlackUser} {e : String}
    (hhttp : env.userHttpOk req.event.user = true)
    (hlk : lookupSlackUser env req.event.user = some u)
    (hbot : u.is_bot = false) (he : u.email = some e)
    (hj : (req.event.type == "member_joined_channel") = false)
    (hl : (req.event.type == "member_left_channel") = true) (s : St) :
    ∃ b1 δ, handleEventCallback env req s = (Except.ok (), { box := b1, trace := s.trace ++ δ }) ∧
      removeCalls δ = [((groupFor s.box req.event.channel).id, e)] ∧
      addCalls δ = [] ∧ collabCalls δ = [] ∧ responses δ = [(200, "")] ∧
      b1.groups = (boxAfterGroup s.box req.event.channel).groups ∧ b1.users = s.box.users ∧
      (List.find? (fun m => m.userLogin == e &&
          m.groupId == (groupFor s.box req.event.channel).id) s.box.memberships = none →
        b1 = boxAfterGroup s.box req.event.channel) := by
  obtain ⟨b1, δ, h1, hr, ha, hc, hp, hg, hu, hnone⟩ :=
    syncSlackUsers_run_left env hbot he hj hl req.event.channel s
  refine ⟨b1, δ ++ [Action.response 200 ""], ?_, ?_, ?_, ?_, ?_, ?_, ?_, hnone⟩
  · simp [handleEventCallback, getSlackUser_run_found hhttp hlk, h1]
  · simp [hr]
  · simp [ha]
  · simp [hc]
  · simp [hp]
  · exact hg
  · exact hu

theorem handleEventCallback_run_ignored {env : Env} {req : ReqBody} {u : SlackUser}
    (hhttp : env.userHttpOk req.event.user = true)
    (hlk : lookupSlackUser env req.event.user = some u)
    (hbot : u.is_bot = false)
    (hig : u.email = none ∨ ((req.event.type == "member_joined_channel") = false ∧
      (req.event.type == "member_left_channel") = false)) (s : St) :
    handleEventCallback env req s = (Except.ok (),
      { box := boxAfterGroup s.box req.event.channel,
        trace := s.trace ++
          [Action.logInfo ("Received " ++ req.event.type ++ " for " ++ u.name),
           Action.logInfo ("Get group for channel " ++ req.event.channel),
           Action.response 200 ""] }) := by
  have h1 := syncSlackUsers_run_ignored env hbot hig req.event.channel s
  simp [handleEventCallback, getSlackUser_run_found hhttp hlk, h1]

theorem handleEventCallback_run_bot {env : Env} {req : ReqBody} {u : SlackUser}
    (hhttp : env.userHttpOk req.event.user = true)
    (hlk : lookupSlackUser env req.event.user = some u)
    (hbot : u.is_bot = true) (hm : env.membersHttpOk = true) (s : St) :
    ∃ b1 δ, handleEventCallback env req s = (Except.ok (), { box := b1, trace := s.trace ++ δ }) ∧
      addCalls δ = fanOutAdds env (groupFor s.box req.event.channel).id
        ((env.channelMembers req.event.channel).take 100) ∧
      removeCalls δ = [] ∧ collabCalls δ = [] ∧ responses δ = [(200, "")] ∧
      b1.groups = (boxAfterGroup s.box req.event.channel).groups ∧ b1.users = s.box.users := by
  obtain ⟨b1, δ, h1, ha, hr, hc, hp, hg, hu⟩ :=
    syncSlackUsers_run_bot env hbot hm req.event.type req.event.channel s
  refine ⟨b1, δ ++ [Action.response 200 ""], ?_, ?_, ?_, ?_, ?_, ?_, ?_⟩
  · simp [handleEventCallback, getSlackUser_run_found hhttp hlk, h1]
  · simp [ha]
  · simp [hr]
  · simp [hc]
  · simp [hp]
  · exact hg
  · exact hu

/-! ## Characterization of the router and handleCommand -/

theorem postEvent_event_good_token {env : Env} {req : ReqBody}
    (htok : req.token = env.verificationToken) (htype : req.type = "event_callback") (s : St) :
    postEvent env req s = handleEventCallback env req s := by
  simp [postEvent, htok, htype]

theorem postEvent_event_bad_token {env : Env} {req : ReqBody}
    (htok : req.token ≠ env.verificationToken) (htype : req.type = "event_callback") (s : St) :
    postEvent env req s = handleEventCallback env req
      { s with trace := s.trace ++ [Action.response 400 "Slack Verification Failed"] } := by
  simp [postEvent, htok, htype]

theorem postEvent_command {env : Env} {req : ReqBody}
    (htok : req.token = env.verificationToken)
    (h1 : (req.type == "url_verification") = false)
    (h2 : (req.type == "event_callback") = false)
    (h3 : (req.command == "/boxadd") = true) (s : St) :
    postEvent env req s = handleCommand env req s := by
  simp [postEvent, htok, h1, h2, h3]

theorem handleCommand_run_boxuser_valid {env : Env} {req : ReqBody} {u : SlackUser} {e : String}
    {bu : BoxUser} {t i : String} (s : St)
    (hsplit : jsSplitSpace req.text = [t, i])
    (hvt : t = "file" ∨ t = "folder") (hvi : jsIsNaN (some i) = false)
    (hhttp : env.userHttpOk req.user_id = true)
    (hlk : lookupSlackUser env req.user_id = some u)
    (he : u.email = some e)
    (hbu : List.find? (fun b0 => b0.login == e) s.box.users = some bu)
    (hcollab : env.collabOk = true) :
    handleCommand env req s = (Except.ok (),
      { box := boxAfterGroup s.box req.channel_id,
        trace := s.trace ++
          [Action.logInfo ("Get group for channel " ++ req.channel_id),
           Action.asUser bu.id,
           Action.collabCreate (groupFor s.box req.channel_id).id (some i) "VIEWER" (some t),
           Action.response 200 "Provided all users with access to item"] }) := by
  rcases hvt with ht | ht <;>
    simp [handleCommand, hsplit, getGroup_run, getSlackUser_run_found hhttp hlk, he, findBoxUser,
      hbu, hcollab, ht, hvi]

theorem handleCommand_run_boxuser_invalid {env : Env} {req : ReqBody} {u : SlackUser} {e : String}
    {bu : BoxUser} {t i : String} (s : St)
    (hsplit : jsSplitSpace req.text = [t, i])
    (hinv : (t ≠ "file" ∧ t ≠ "folder") ∨ jsIsNaN (some i) = true)
    (hhttp : env.userHttpOk req.user_id = true)
    (hlk : lookupSlackUser env req.user_id = some u)
    (he : u.email = some e)
    (hbu : List.find? (fun b0 => b0.login == e) s.box.users = some bu)
    (hcollab : env.collabOk = true) :
    handleCommand env req s = (Except.ok (),
      { box := boxAfterGroup s.box req.channel_id,
        trace := s.trace ++
          [Action.response 200 "Invalid input. Example usage: /boxadd file 123456",
           Action.logInfo ("Get group for channel " ++ req.channel_id),
           Action.asUser bu.id,
           Action.collabCreate (groupFor s.box req.channel_id).id (some i) "VIEWER" (some t),
           Action.response 200 "Provided all users with access to item"] }) := by
  rcases hinv with ⟨h1, h2⟩ | hn
  · simp [handleCommand, hsplit, getGroup_run, getSlackUser_run_found hhttp hlk, he, findBoxUser,
      hbu, hcollab, h1, h2]
  · simp [handleCommand, hsplit, getGroup_run, getSlackUser_run_found hhttp hlk, he, findBoxUser,
      hbu, hcollab, hn]

theorem handleCommand_run_nobox_valid {env : Env} {req : ReqBody} {u : SlackUser} {e : String}
    {t i : String} (s : St)
    (hsplit : jsSplitSpace req.text = [t, i])
    (hvt : t = "file" ∨ t = "folder") (hvi : jsIsNaN (some i) = false)
    (hhttp : env.userHttpOk req.user_id = true)
    (hlk : lookupSlackUser env req.user_id = some u)
    (he : u.email = some e)
    (hbu : List.find? (fun b0 => b0.login == e) s.box.users = none) :
    handleCommand env req s = (Except.ok (),
      { box := boxAfterGroup s.box req.channel_id,
        trace := s.trace ++
          [Action.logInfo ("Get group for channel " ++ req.channel_id),
           Action.response 200 ("Could not find a Box user with email " ++ e)] }) := by
  rcases hvt with ht | ht <;>
    simp [handleCommand, hsplit, getGroup_run, getSlackUser_run_found hhttp hlk, he, findBoxUser,
      hbu, jsShow, ht, hvi]

/-! ## Further helper lemmas -/

theorem boxAfterGroup_eq_of_found {b : BoxState} {c : String} {g : Group}
    (h : findGroup b (mirrorName c) = some g) : boxAfterGroup b c = b := by
  simp [boxAfterGroup, h]

theorem groupFor_eq_of_found {b : BoxState} {c : String} {g : Group}
    (h : findGroup b (mirrorName c) = some g) : groupFor b c = g := by
  simp [groupFor, h]

theorem findGroup_eq_of_groups {b1 b2 : BoxState} (h : b1.groups = b2.groups) (n : String) :
    findGroup b1 n = findGroup b2 n := by
  simp [findGroup, h]

/-! ## Concrete fixtures for witnesses and counterexamples -/

def alice : SlackUser :=
  { id := "U1", name := "alice", is_bot := false, email := some "alice@example.com" }

def botty : SlackUser :=
  { id := "U2", name := "botty", is_bot := true, email := some "bot@example.com" }

def carol : SlackUser :=
  { id := "U3", name := "carol", is_bot := false, email := none }

def env0 : Env :=
  { slackUsers := [alice, botty, carol]
    channelMembers := fun _ => ["U1", "U2", "U3", "U9"]
    userHttpOk := fun _ => true
    membersHttpOk := true
    collabOk := true
    verificationToken := "sekret" }

def boxAlice : BoxUser := { id := 11, login := "alice@example.com" }

def st0 : St :=
  { box := { groups := [], users := [boxAlice], memberships := [], nextId := 0 }, trace := [] }

def reqJoin : ReqBody :=
  { token := "sekret", type := "event_callback", challenge := ""
    event := { type := "member_joined_channel", channel := "CHAN", user := "U1" }
    command := "", channel_id := "", user_id := "", text := "" }

/-! ## Claim C1 -/

def boxBob : BoxUser := { id := 12, login := "bob@example.com" }

def bobOtherMembership : Membership :=
  { id := 30, userId := 12, userLogin := "bob@example.com", groupId := 7 }

instance {ε α : Type} [DecidableEq ε] [DecidableEq α] : DecidableEq (Except ε α) := fun x y =>
  match x, y with
  | Except.ok a, Except.ok b => decidable_of_iff (a = b) (by simp)
  | Except.error a, Except.error b => decidable_of_iff (a = b) (by simp)
  | Except.ok _, Except.error _ => isFalse (by simp)
  | Except.error _, Except.ok _ => isFalse (by simp)

def boxC1 : BoxState :=
  { groups := [{ id := 5, name := "slack-CHAN" }, { id := 7, name := "other" }]
    users := [boxBob]
    memberships := [bobOtherMembership]
    nextId := 40 }

/-- Failing input for claim C1: bob is a member of group 7 only, and group 5
is the target. -/
def stC1 : St := { box := boxC1, trace := [] }

/-- Claim C1: the claim says the pre-add membership check tests membership of
the target group, and that the add is a no-op exactly when the user already
belongs to that group.  Evaluating addGroupUser at the failing input shows
otherwise: bob belongs to group 7 only and holds no membership of group 5,
yet the operation issues no Box add call, leaves the Box state unchanged, and
logs that bob is already a member of group 5 — the filter in the source tests
m.user.id === userId instead of the group. -/
theorem c1_membership_check_wrong_side :
    stC1.box.memberships.filter (fun m => m.groupId == 5 && m.userId == boxBob.id) = [] ∧
    addGroupUser 5 "bob@example.com" stC1 = (Except.ok (),
      { box := stC1.box,
        trace := [Action.addMemberCall 5 "bob@example.com",
          Action.logInfo "User bob@example.com is already a member of group 5"] }) ∧
    boxAddCalls (addGroupUser 5 "bob@example.com" stC1).2.trace = [] := by
  decide

/-! ## Claim C2 -/

/-- Claim C2: for every channel identifier, the group getGroup returns is
named slack- ++ channel, and a second call with the same channel returns the
same group while leaving the Box state unchanged. -/
theorem c2_getGroup_name_idempotent (c : String) (s : St) :
    ∃ g s1 s2, getGroup c s = (Except.ok g, s1) ∧ g.name = mirrorName c ∧
      getGroup c s1 = (Except.ok g, s2) ∧ s2.box = s1.box := by
  refine ⟨groupFor s.box c,
    { box := boxAfterGroup s.box c,
      trace := s.trace ++ [Action.logInfo ("Get group for channel " ++ c)] },
    { box := boxAfterGroup s.box c,
      trace := (s.trace ++ [Action.logInfo ("Get group for channel " ++ c)]) ++
        [Action.logInfo ("Get group for channel " ++ c)] },
    getGroup_run c s, groupFor_name s.box c, ?_, rfl⟩
  rw [getGroup_run]
  simp [groupFor_eq_of_found (findGroup_after s.box c),
    boxAfterGroup_eq_of_found (findGroup_after s.box c)]

/-! ## Claim C3 -/

/-- Claim C3: a member_joined_channel event for a non-bot user with an email
produces exactly one add-membership call, carrying that email and the mirror
group of the channel. -/
theorem c3_joined_event_single_add (env : Env) (req : ReqBody) (u : SlackUser) (e : String)
    (s : St)
    (htok : req.token = env.verificationToken)
    (htype : req.type = "event_callback")
    (hev : req.event.type = "member_joined_channel")
    (hhttp : env.userHttpOk req.event.user = true)
    (hlk : lookupSlackUser env req.event.user = some u)
    (hbot : u.is_bot = false)
    (he : u.email = some e) :
    ∃ s1 g, postEvent env req s = (Except.ok (), s1) ∧
      findGroup s1.box (mirrorName req.event.channel) = some g ∧
      addCalls s1.trace = addCalls s.trace ++ [(g.id, e)] ∧
      removeCalls s1.trace = removeCalls s.trace := by
  have hj : (req.event.type == "member_joined_channel") = true := by simp [hev]
  obtain ⟨b1, δ, h1, ha, hr, hc, hp, hg, hu2⟩ :=
    handleEventCallback_run_joined hhttp hlk hbot he hj s
  refine ⟨{ box := b1, trace := s.trace ++ δ }, groupFor s.box req.event.channel, ?_, ?_, ?_, ?_⟩
  · rw [postEvent_event_good_token htok htype, h1]
  · rw [show ({ box := b1, trace := s.trace ++ δ } : St).box = b1 from rfl,
      findGroup_eq_of_groups hg]
    exact findGroup_after s.box req.event.channel
  · simp [ha]
  · simp [hr]

/-- Witness for claim C3 at a concrete input. -/
theorem c3_witness :
    ∃ s1 g, postEvent env0 reqJoin st0 = (Except.ok (), s1) ∧
      findGroup s1.box (mirrorName reqJoin.event.channel) = some g ∧
      addCalls s1.trace = addCalls st0.trace ++ [(g.id, "alice@example.com")] ∧
      removeCalls s1.trace = removeCalls st0.trace :=
  c3_joined_event_single_add env0 reqJoin alice "alice@example.com" st0
    rfl rfl rfl rfl (by decide) rfl rfl

/-! ## Claim C4 -/

/-- Claim C4: a bot-originated event triggers the roster fan-out over the
first page of the channel member listing, and the add-membership calls issued
are exactly those for members that resolve to a non-bot user with an email
(the fanOutAdds filter); bots, emailless members and members without user
data receive none. -/
theorem c4_bot_event_fanout (env : Env) (req : ReqBody) (u : SlackUser) (s : St)
    (htok : req.token = env.verificationToken)
    (htype : req.type = "event_callback")
    (hhttp : env.userHttpOk req.event.user = true)
    (hlk : lookupSlackUser env req.event.user = some u)
    (hbot : u.is_bot = true)
    (hm : env.membersHttpOk = true) :
    ∃ s1 g, postEvent env req s = (Except.ok (), s1) ∧
      findGroup s1.box (mirrorName req.event.channel) = some g ∧
      addCalls s1.trace = addCalls s.trace ++
        fanOutAdds env g.id ((env.channelMembers req.event.channel).take 100) ∧
      removeCalls s1.trace = removeCalls s.trace := by
  obtain ⟨b1, δ, h1, ha, hr, hc, hp, hg, hu2⟩ := handleEventCallback_run_bot hhttp hlk hbot hm s
  refine ⟨{ box := b1, trace := s.trace ++ δ }, groupFor s.box req.event.channel, ?_, ?_, ?_, ?_⟩
  · rw [postEvent_event_good_token htok htype, h1]
  · rw [show ({ box := b1, trace := s.trace ++ δ } : St).box = b1 from rfl,
      findGroup_eq_of_groups hg]
    exact findGroup_after s.box req.event.channel
  · simp [ha]
  · simp [hr]

def reqBot : ReqBody :=
  { token := "sekret", type := "event_callback", challenge := ""
    event := { type := "member_joined_channel", channel := "CHAN", user := "U2" }
    command := "", channel_id := "", user_id := "", text := "" }

/-- Witness for claim C4 at a concrete input: the member page holds the
non-bot alice (added), the bot botty (skipped), the emailless carol (skipped)
and the unknown U9 (skipped). -/
theorem c4_witness :
    (∃ s1 g, postEvent env0 reqBot st0 = (Except.ok (), s1) ∧
      findGroup s1.box (mirrorName reqBot.event.channel) = some g ∧
      addCalls s1.trace = addCalls st0.trace ++
        fanOutAdds env0 g.id ((env0.channelMembers reqBot.event.channel).take 100) ∧
      removeCalls s1.trace = removeCalls st0.trace) ∧
    fanOutAdds env0 0 ((env0.channelMembers "CHAN").take 100) = [(0, "alice@example.com")] :=
  ⟨c4_bot_event_fanout env0 reqBot botty st0 rfl rfl rfl (by decide) rfl rfl, by decide⟩

/-! ## Claim C5 -/

def reqLeftCarol : ReqBody :=
  { token := "sekret", type := "event_callback", challenge := ""
    event := { type := "member_left_channel", channel := "CHAN", user := "U3" }
    command := "", channel_id := "", user_id := "", text := "" }

/-- Counterexample to claim C5 as stated: a member_left_channel event whose
acting user has no email is processed successfully with zero
remove-membership calls, not exactly one. -/
theorem c5_counterexample :
    (postEvent env0 reqLeftCarol st0).1 = Except.ok () ∧
    removeCalls (postEvent env0 reqLeftCarol st0).2.trace = [] := by
  decide

/-- Claim C5 (amended): a member_left_channel event whose acting user is a
non-bot with an email produces exactly one remove-membership call with that
email and the mirror group; when no membership of the group matches the
email, processing completes without error and the membership list is
unchanged. -/
theorem c5_left_event_single_remove (env : Env) (req : ReqBody) (u : SlackUser) (e : String)
    (s : St)
    (htok : req.token = env.verificationToken)
    (htype : req.type = "event_callback")
    (hev : req.event.type = "member_left_channel")
    (hhttp : env.userHttpOk req.event.user = true)
    (hlk : lookupSlackUser env req.event.user = some u)
    (hbot : u.is_bot = false)
    (he : u.email = some e) :
    ∃ s1 g, postEvent env req s = (Except.ok (), s1) ∧
      findGroup s1.box (mirrorName req.event.channel) = some g ∧
      removeCalls s1.trace = removeCalls s.trace ++ [(g.id, e)] ∧
      addCalls s1.trace = addCalls s.trace ∧
      (List.find? (fun m => m.userLogin == e && m.groupId == g.id) s.box.memberships = none →
        s1.box.memberships = s.box.memberships) := by
  have hj : (req.event.type == "member_joined_channel") = false := by simp [hev]
  have hl : (req.event.type == "member_left_channel") = true := by simp [hev]
  obtain ⟨b1, δ, h1, hr, ha, hc, hp, hg, hu2, hnone⟩ :=
    handleEventCallback_run_left hhttp hlk hbot he hj hl s
  refine ⟨{ box := b1, trace := s.trace ++ δ }, groupFor s.box req.event.channel,
    ?_, ?_, ?_, ?_, ?_⟩
  · rw [postEvent_event_good_token htok htype, h1]
  · rw [show ({ box := b1, trace := s.trace ++ δ } : St).box = b1 from rfl,
      findGroup_eq_of_groups hg]
    exact findGroup_after s.box req.event.channel
  · simp [hr]
  · simp [ha]
  · intro hfind
    rw [show ({ box := b1, trace := s.trace ++ δ } : St).box = b1 from rfl, hnone hfind]
    simp

def reqLeftAlice : ReqBody :=
  { token := "sekret", type := "event_callback", challenge := ""
    event := { type := "member_left_channel", channel := "CHAN", user := "U1" }
    command := "", channel_id := "", user_id := "", text := "" }

/-- Witness for the amended claim C5 at a concrete input with no matching
membership. -/
theorem c5_witness :
    ∃ s1 g, postEvent env0 reqLeftAlice st0 = (Except.ok (), s1) ∧
      findGroup s1.box (mirrorName reqLeftAlice.event.channel) = some g ∧
      removeCalls s1.trace = removeCalls st0.trace ++ [(g.id, "alice@example.com")] ∧
      addCalls s1.trace = addCalls st0.trace ∧
      (List.find? (fun m => m.userLogin == "alice@example.com" && m.groupId == g.id)
          st0.box.memberships = none →
        s1.box.memberships = st0.box.memberships) :=
  c5_left_event_single_remove env0 reqLeftAlice alice "alice@example.com" st0
    rfl rfl rfl rfl (by decide) rfl rfl

/-! ## Claim C6 -/

/-- Claim C6: a /boxadd invocation with a valid item type, a numeric item id
and a requester whose email resolves to a Box user makes exactly one
collaboration-create call with role VIEWER and the given item type and id and
sends the success response; when the email resolves to no Box user, the
not-found response is sent and no collaboration-create call is made. -/
theorem c6_boxadd_collaboration (env : Env) (req : ReqBody) (u : SlackUser)
    (e t i : String) (st1 st2 : St) (bu : BoxUser)
    (htok : req.token = env.verificationToken)
    (h1 : req.type ≠ "url_verification") (h2 : req.type ≠ "event_callback")
    (h3 : req.command = "/boxadd")
    (hsplit : jsSplitSpace req.text = [t, i])
    (hvt : t = "file" ∨ t = "folder") (hvi : jsIsNaN (some i) = false)
    (hhttp : env.userHttpOk req.user_id = true)
    (hlk : lookupSlackUser env req.user_id = some u)
    (he : u.email = some e)
    (hcollab : env.collabOk = true)
    (hbu1 : List.find? (fun b0 => b0.login == e) st1.box.users = some bu)
    (hbu2 : List.find? (fun b0 => b0.login == e) st2.box.users = none) :
    (∃ s1 g, postEvent env req st1 = (Except.ok (), s1) ∧
      findGroup s1.box (mirrorName req.channel_id) = some g ∧
      collabCalls s1.trace = collabCalls st1.trace ++ [(g.id, some i, "VIEWER", some t)] ∧
      responses s1.trace = responses st1.trace ++
        [(200, "Provided all users with access to item")]) ∧
    (∃ s2, postEvent env req st2 = (Except.ok (), s2) ∧
      collabCalls s2.trace = collabCalls st2.trace ∧
      responses s2.trace = responses st2.trace ++
        [(200, "Could not find a Box user with email " ++ e)]) := by
  have h1b : (req.type == "url_verification") = false := by simp [h1]
  have h2b : (req.type == "event_callback") = false := by simp [h2]
  have h3b : (req.command == "/boxadd") = true := by simp [h3]
  constructor
  · have hc := handleCommand_run_boxuser_valid st1 hsplit hvt hvi hhttp hlk he hbu1 hcollab
    refine ⟨_, groupFor st1.box req.channel_id,
      (postEvent_command htok h1b h2b h3b st1).trans hc, ?_, ?_, ?_⟩
    · exact findGroup_after st1.box req.channel_id
    · simp
    · simp
  · have hc := handleCommand_run_nobox_valid st2 hsplit hvt hvi hhttp hlk he hbu2
    refine ⟨_, (postEvent_command htok h1b h2b h3b st2).trans hc, ?_, ?_⟩
    · simp
    · simp

def reqCmd : ReqBody :=
  { token := "sekret", type := "", challenge := ""
    event := { type := "", channel := "", user := "" }
    command := "/boxadd", channel_id := "CHAN", user_id := "U1", text := "file 123456" }

def stNoBox : St :=
  { box := { groups := [], users := [], memberships := [], nextId := 0 }, trace := [] }

/-- Witness for claim C6 at a concrete input: /boxadd file 123456 from alice,
once against a Box state that knows alice and once against an empty user
directory. -/
theorem c6_witness :
    (∃ s1 g, postEvent env0 reqCmd st0 = (Except.ok (), s1) ∧
      findGroup s1.box (mirrorName reqCmd.channel_id) = some g ∧
      collabCalls s1.trace = collabCalls st0.trace ++
        [(g.id, some "123456", "VIEWER", some "file")] ∧
      responses s1.trace = responses st0.trace ++
        [(200, "Provided all users with access to item")]) ∧
    (∃ s2, postEvent env0 reqCmd stNoBox = (Except.ok (), s2) ∧
      collabCalls s2.trace = collabCalls stNoBox.trace ∧
      responses s2.trace = responses stNoBox.trace ++
        [(200, "Could not find a Box user with email alice@example.com")]) :=
  c6_boxadd_collaboration env0 reqCmd alice "alice@example.com" "file" "123456" st0 stNoBox
    boxAlice rfl (by decide) (by decide) rfl (by decide) (Or.inl rfl) (by decide) rfl
    (by decide) rfl rfl (by decide) (by decide)

/-! ## Claim C7 -/

/-- Claim C7: a failed webhook-token check sends the 400 response but does
not halt processing: an event_callback with a wrong token still runs the
group-sync workflow, issuing its add-membership call after the 400 response;
and a /boxadd whose text fails validation sends the usage response but still
runs the command workflow, issuing the collaboration-create call after it. -/
theorem c7_fallthrough_after_error_responses (env1 env2 : Env) (req1 req2 : ReqBody)
    (u1 u2 : SlackUser) (e1 e2 t i : String) (s1 s2 : St) (bu : BoxUser)
    (a1 : req1.token ≠ env1.verificationToken)
    (a2 : req1.type = "event_callback")
    (a3 : req1.event.type = "member_joined_channel")
    (a4 : env1.userHttpOk req1.event.user = true)
    (a5 : lookupSlackUser env1 req1.event.user = some u1)
    (a6 : u1.is_bot = false) (a7 : u1.email = some e1)
    (b1 : req2.token = env2.verificationToken)
    (b2 : req2.type ≠ "url_verification") (b3 : req2.type ≠ "event_callback")
    (b4 : req2.command = "/boxadd")
    (b5 : jsSplitSpace req2.text = [t, i])
    (b6 : (t ≠ "file" ∧ t ≠ "folder") ∨ jsIsNaN (some i) = true)
    (b7 : env2.userHttpOk req2.user_id = true)
    (b8 : lookupSlackUser env2 req2.user_id = some u2)
    (b9 : u2.email = some e2)
    (b10 : List.find? (fun b0 => b0.login == e2) s2.box.users = some bu)
    (b11 : env2.collabOk = true) :
    (∃ s1x g, postEvent env1 req1 s1 = (Except.ok (), s1x) ∧
      responses s1x.trace = responses s1.trace ++
        [(400, "Slack Verification Failed"), (200, "")] ∧
      findGroup s1x.box (mirrorName req1.event.channel) = some g ∧
      addCalls s1x.trace = addCalls s1.trace ++ [(g.id, e1)]) ∧
    (∃ s2x g2, postEvent env2 req2 s2 = (Except.ok (), s2x) ∧
      responses s2x.trace = responses s2.trace ++
        [(200, "Invalid input. Example usage: /boxadd file 123456"),
         (200, "Provided all users with access to item")] ∧
      findGroup s2x.box (mirrorName req2.channel_id) = some g2 ∧
      collabCalls s2x.trace = collabCalls s2.trace ++ [(g2.id, some i, "VIEWER", some t)]) := by
  constructor
  · have hj : (req1.event.type == "member_joined_channel") = true := by simp [a3]
    obtain ⟨bx, δ, h1, ha, hr, hc, hp, hg, hu2⟩ :=
      handleEventCallback_run_joined a4 a5 a6 a7 hj
        { s1 with trace := s1.trace ++ [Action.response 400 "Slack Verification Failed"] }
    refine ⟨_, groupFor s1.box req1.event.channel,
      (postEvent_event_bad_token a1 a2 s1).trans h1, ?_, ?_, ?_⟩
    · simp [hp]
    · show findGroup bx (mirrorName req1.event.channel) =
        some (groupFor s1.box req1.event.channel)
      rw [findGroup_eq_of_groups hg]
      exact findGroup_after s1.box req1.event.channel
    · simp [ha]
  · have h1b : (req2.type == "url_verification") = false := by simp [b2]
    have h2b : (req2.type == "event_callback") = false := by simp [b3]
    have h3b : (req2.command == "/boxadd") = true := by simp [b4]
    have hc := handleCommand_run_boxuser_invalid s2 b5 b6 b7 b8 b9 b10 b11
    refine ⟨_, groupFor s2.box req2.channel_id,
      (postEvent_command b1 h1b h2b h3b s2).trans hc, ?_, ?_, ?_⟩
    · simp
    · exact findGroup_after s2.box req2.channel_id
    · simp

def reqBadTok : ReqBody :=
  { token := "wrong", type := "event_callback", challenge := ""
    event := { type := "member_joined_channel", channel := "CHAN", user := "U1" }
    command := "", channel_id := "", user_id := "", text := "" }

def reqBadText : ReqBody :=
  { token := "sekret", type := "", challenge := ""
    event := { type := "", channel := "", user := "" }
    command := "/boxadd", channel_id := "CHAN", user_id := "U1", text := "badtype abc" }

/-- Witness for claim C7 at concrete inputs: a wrong verification token with
a joined event, and a /boxadd with an invalid item type and a non-numeric
id. -/
theorem c7_witness :
    (∃ s1x g, postEvent env0 reqBadTok st0 = (Except.ok (), s1x) ∧
      responses s1x.trace = responses st0.trace ++
        [(400, "Slack Verification Failed"), (200, "")] ∧
      findGroup s1x.box (mirrorName reqBadTok.event.channel) = some g ∧
      addCalls s1x.trace = addCalls st0.trace ++ [(g.id, "alice@example.com")]) ∧
    (∃ s2x g2, postEvent env0 reqBadText st0 = (Except.ok (), s2x) ∧
      responses s2x.trace = responses st0.trace ++
        [(200, "Invalid input. Example usage: /boxadd file 123456"),
         (200, "Provided all users with access to item")] ∧
      findGroup s2x.box (mirrorName reqBadText.channel_id) = some g2 ∧
      collabCalls s2x.trace = collabCalls st0.trace ++
        [(g2.id, some "abc", "VIEWER", some "badtype")]) :=
  c7_fallthrough_after_error_responses env0 env0 reqBadTok reqBadText alice alice
    "alice@example.com" "alice@example.com" "badtype" "abc" st0 st0 boxAlice
    (by decide) rfl rfl rfl (by decide) rfl rfl
    rfl (by decide) (by decide) rfl (by decide) (Or.inl ⟨by decide, by decide⟩) rfl
    (by decide) rfl (by decide) rfl

/-! ## Claim C8 -/

def reqGhost : ReqBody :=
  { token := "sekret", type := "event_callback", challenge := ""
    event := { type := "member_joined_channel", channel := "CHAN", user := "U9" }
    command := "", channel_id := "", user_id := "", text := "" }

/-- Counterexample to claim C8 as stated: a joined event whose user lookup
returns no data is logged, but the caller does not treat it as skippable no
data: it dereferences the undefined user, so processing of the whole request
aborts with a TypeError and no response is sent, and no membership call is
made. -/
theorem c8_counterexample :
    (postEvent env0 reqGhost st0).1 = Except.error JsErr.typeError ∧
    (postEvent env0 reqGhost st0).2.trace = [Action.logError "No user data found"] ∧
    responses (postEvent env0 reqGhost st0).2.trace = [] := by
  decide

/-- Claim C8 (amended): a chat-user lookup that returns no data is logged; in
the roster fan-out the affected member is skipped without aborting the
others, but in the direct event path the workflow dereferences the undefined
user, so the processing of the whole request aborts with a TypeError and no
response is sent. -/
theorem c8_lookup_failure_paths (env : Env) (req : ReqBody) (s : St) (gid : Nat) (uid : String)
    (s0 : St)
    (htok : req.token = env.verificationToken) (htype : req.type = "event_callback")
    (hhttp : env.userHttpOk req.event.user = true)
    (hnk : lookupSlackUser env req.event.user = none)
    (hhttp2 : env.userHttpOk uid = true)
    (hnk2 : lookupSlackUser env uid = none) :
    postEvent env req s = (Except.error JsErr.typeError,
      { s with trace := s.trace ++ [Action.logError "No user data found"] }) ∧
    detach (syncMember env gid uid) s0 = (Except.ok (),
      { s0 with trace := s0.trace ++ [Action.logError "No user data found"] }) := by
  constructor
  · rw [postEvent_event_good_token htok htype]
    simp [handleEventCallback, getSlackUser_run_nodata hhttp hnk, syncSlackUsers]
  · simp [syncMember, getSlackUser_run_nodata hhttp2 hnk2]

/-- Witness for the amended claim C8 at a concrete input. -/
theorem c8_witness :
    postEvent env0 reqGhost st0 = (Except.error JsErr.typeError,
      { st0 with trace := st0.trace ++ [Action.logError "No user data found"] }) ∧
    detach (syncMember env0 3 "U9") st0 = (Except.ok (),
      { st0 with trace := st0.trace ++ [Action.logError "No user data found"] }) :=
  c8_lookup_failure_paths env0 reqGhost st0 3 "U9" st0 rfl rfl rfl (by decide) rfl (by decide)

/-! ## Claim C9 -/

def reqJoinNew : ReqBody :=
  { token := "sekret", type := "event_callback", challenge := ""
    event := { type := "member_joined_channel", channel := "NEW", user := "U1" }
    command := "", channel_id := "", user_id := "", text := "" }

/-- Counterexample to claim C9: on a fresh channel the local variable of
getGroup is indeed the unawaited create promise, but since getGroup is an
async function, the await in the caller resolves that promise: getGroup
returns the created group object with its id populated (here 0), not a value
with an undefined id, and the membership add issued by a first joined event
on the new channel carries that id. -/
theorem c9_counterexample :
    (getGroupVal "NEW" st0).1 = Except.ok (JsVal.promise { id := 0, name := "slack-NEW" }) ∧
    (getGroup "NEW" st0).1 = Except.ok { id := 0, name := "slack-NEW" } ∧
    addCalls (postEvent env0 reqJoinNew st0).2.trace = [(0, "alice@example.com")] := by
  decide

/-- Claim C9 (amended): on a channel with no existing group, getGroup issues
the create call and returns its promise without awaiting it inside the
function body, but the enclosing async function makes the caller that awaits
getGroup receive the created group itself, with its id field populated with
the fresh id. -/
theorem c9_created_group_resolved (c : String) (s : St)
    (h : findGroup s.box (mirrorName c) = none) :
    getGroupVal c s =
      (Except.ok (JsVal.promise { id := s.box.nextId, name := mirrorName c }),
        { box := boxAfterGroup s.box c,
          trace := s.trace ++ [Action.logInfo ("Get group for channel " ++ c)] }) ∧
    getGroup c s =
      (Except.ok { id := s.box.nextId, name := mirrorName c },
        { box := boxAfterGroup s.box c,
          trace := s.trace ++ [Action.logInfo ("Get group for channel " ++ c)] }) := by
  refine ⟨getGroupVal_run_created h, ?_⟩
  rw [getGroup_run]
  simp [groupFor, h]

/-- Witness for the amended claim C9 at a concrete input. -/
theorem c9_witness :
    getGroupVal "NEW" st0 =
      (Except.ok (JsVal.promise { id := st0.box.nextId, name := mirrorName "NEW" }),
        { box := boxAfterGroup st0.box "NEW",
          trace := st0.trace ++ [Action.logInfo ("Get group for channel " ++ "NEW")] }) ∧
    getGroup "NEW" st0 =
      (Except.ok { id := st0.box.nextId, name := mirrorName "NEW" },
        { box := boxAfterGroup st0.box "NEW",
          trace := st0.trace ++ [Action.logInfo ("Get group for channel " ++ "NEW")] }) :=
  c9_created_group_resolved "NEW" st0 (by decide)

/-! ## Claim C10 -/

/-- Claim C10: for every event_callback, the sync workflow resolves or
creates the mirror group before inspecting the event type and the user
email: processing an event that is otherwise ignored (an event type other
than joined or left, or a user without an email) still makes the mirror
group exist, creating it as a side effect when absent, while issuing no
membership or collaboration calls. -/
theorem c10_group_created_for_ignored_events (env : Env) (req : ReqBody) (u : SlackUser)
    (s : St)
    (htok : req.token = env.verificationToken)
    (htype : req.type = "event_callback")
    (hhttp : env.userHttpOk req.event.user = true)
    (hlk : lookupSlackUser env req.event.user = some u)
    (hbot : u.is_bot = false)
    (hig : u.email = none ∨ (req.event.type ≠ "member_joined_channel" ∧
      req.event.type ≠ "member_left_channel")) :
    ∃ s1 g, postEvent env req s = (Except.ok (), s1) ∧
      findGroup s1.box (mirrorName req.event.channel) = some g ∧
      (findGroup s.box (mirrorName req.event.channel) = none →
        s1.box.groups = s.box.groups ++
          [{ id := s.box.nextId, name := mirrorName req.event.channel }]) ∧
      addCalls s1.trace = addCalls s.trace ∧
      removeCalls s1.trace = removeCalls s.trace ∧
      collabCalls s1.trace = collabCalls s.trace := by
  have hig2 : u.email = none ∨ ((req.event.type == "member_joined_channel") = false ∧
      (req.event.type == "member_left_channel") = false) := by
    rcases hig with h | ⟨h1, h2⟩
    · exact Or.inl h
    · exact Or.inr ⟨by simp [h1], by simp [h2]⟩
  have h1 := handleEventCallback_run_ignored hhttp hlk hbot hig2 s
  refine ⟨_, groupFor s.box req.event.channel,
    (postEvent_event_good_token htok htype s).trans h1, ?_, ?_, ?_, ?_, ?_⟩
  · exact findGroup_after s.box req.event.channel
  · intro hnone
    show (boxAfterGroup s.box req.event.channel).groups = _
    simp [boxAfterGroup, hnone]
  · simp
  · simp
  · simp

def reqOther : ReqBody :=
  { token := "sekret", type := "event_callback", challenge := ""
    event := { type := "reaction_added", channel := "CHAN", user := "U1" }
    command := "", channel_id := "", user_id := "", text := "" }

/-- Witness for claim C10 at a concrete input: a reaction_added event from a
non-bot user with an email still brings the mirror group into existence. -/
theorem c10_witness :
    ∃ s1 g, postEvent env0 reqOther st0 = (Except.ok (), s1) ∧
      findGroup s1.box (mirrorName reqOther.event.channel) = some g ∧
      (findGroup st0.box (mirrorName reqOther.event.channel) = none →
        s1.box.groups = st0.box.groups ++
          [{ id := st0.box.nextId, name := mirrorName reqOther.event.channel }]) ∧
      addCalls s1.trace = addCalls st0.trace ∧
      removeCalls s1.trace = removeCalls st0.trace ∧
      collabCalls s1.trace = collabCalls st0.trace :=
  c10_group_created_for_ignored_events env0 reqOther alice st0
    rfl rfl rfl (by decide) rfl (Or.inr ⟨by decide, by decide⟩)

end BoxSlack
